import Mathlib

/-!
Verification of the sales-conversation workflow engine
(`src/graph/state.py`, `src/graph/nodes.py`, `src/graph/workflow.py`,
`src/services/llm_service.py`) against its specification.

Shallow embedding conventions:
* Python floats used for `intent_score` are modelled as rationals (`ℚ`);
  the program only ever compares them against the literals 0.8 and 0.2.
* `datetime.utcnow()` is modelled as a `Nat` parameter `now` (seconds);
  `timedelta(hours=h)` adds `h * 3600`.
* LangGraph nodes return sparse dict updates; these are modelled by
  `StateUpdate` (a record of `Option` fields) merged by `applyUpdate`.
* Calls to the LLM service inside a node are modelled by passing the
  LLM's output text as an explicit parameter of the node function.
* Python `dict` values (`collected_data`, extraction results) are
  modelled extensionally as `String → Option String`; Python dict
  equality compares key-value sets, which this captures.
-/

/-- A chat message, as the `langchain_core` message classes used by the
graph: `HumanMessage`, `AIMessage`, `SystemMessage`. -/
inductive Message where
  | human (content : String)
  | ai (content : String)
  | system (content : String)
deriving DecidableEq

/-- `isinstance(m, HumanMessage)` as used throughout `src/graph/nodes.py`. -/
def Message.isHuman : Message → Bool
  | .human _ => true
  | _ => false

/-- A Python dict with string keys, taken extensionally (Python `==` on
dicts compares key-value sets). -/
def Dict : Type := String → Option String

/-- The empty dict `{}`. -/
def Dict.empty : Dict := fun _ => none

/-- Python `d.update(e)`: every key present in `e` overwrites the entry
in `d`; keys absent from `e` keep their value from `d`
(`src/graph/nodes.py` line 217, `collected_data.update(extracted_data)`). -/
def dictUpdate (d e : Dict) : Dict :=
  fun k => match e k with
    | some v => some v
    | none => d k

/-- The configuration keys the modelled nodes read
(`config.get(...)` in `src/graph/nodes.py`); a key may be absent. -/
structure Config where
  welcome_message : Option String
  payment_link : Option String
  product_name : Option String
deriving DecidableEq

/-- A config with none of the modelled keys set. -/
def defaultConfig : Config :=
  { welcome_message := none, payment_link := none, product_name := none }

/-- `ConversationState` from `src/graph/state.py`. The `db_session` and
`db_user` fields (opaque handles never read by the modelled logic) are
omitted. -/
structure ConversationState where
  messages : List Message
  user_phone : String
  user_name : Option String
  user_email : Option String
  intent_score : ℚ
  sentiment : String
  stage : String
  conversation_mode : String
  collected_data : Dict
  payment_link_sent : Bool
  follow_up_scheduled : Option Nat
  follow_up_count : Nat
  conversation_summary : Option String
  current_response : Option String
  config : Config

/-- The sparse dict a node returns, merged into the running state by the
graph engine. `none` means the key is absent from the returned dict. -/
structure StateUpdate where
  current_response : Option String
  stage : Option String
  conversation_mode : Option String
  payment_link_sent : Option Bool
  follow_up_scheduled : Option Nat
  follow_up_count : Option Nat
deriving DecidableEq

/-- The empty update `{}` returned by nodes that make no change. -/
def emptyUpdate : StateUpdate :=
  { current_response := none, stage := none, conversation_mode := none,
    payment_link_sent := none, follow_up_scheduled := none,
    follow_up_count := none }

/-- LangGraph's merge of a node's returned dict into the running state:
present keys overwrite, absent keys leave the state untouched. -/
def applyUpdate (s : ConversationState) (u : StateUpdate) : ConversationState :=
  { s with
    current_response :=
      match u.current_response with
      | some v => some v
      | none => s.current_response,
    stage := u.stage.getD s.stage,
    conversation_mode := u.conversation_mode.getD s.conversation_mode,
    payment_link_sent := u.payment_link_sent.getD s.payment_link_sent,
    follow_up_scheduled :=
      match u.follow_up_scheduled with
      | some v => some v
      | none => s.follow_up_scheduled,
    follow_up_count := u.follow_up_count.getD s.follow_up_count }

/-- The dead negative-sentiment re-check inside `router_node`
(`src/graph/nodes.py` lines 276-284): `recent_sentiments` is built as the
one-element list `[state.get("sentiment")]`, then required to have length
at least 2. -/
def negativeHandoffCheck (s : ConversationState) : Bool :=
  if s.sentiment = "negative" then
    let user_messages := s.messages.filter Message.isHuman
    if 2 ≤ user_messages.length then
      let recent_sentiments : List String := [s.sentiment]
      decide (2 ≤ recent_sentiments.length) &&
        (recent_sentiments.drop (recent_sentiments.length - 2)).all
          (fun t => t = "negative")
    else false
  else false

/-- `router_node` from `src/graph/nodes.py` lines 254-304: the conditional
edge function selecting the branch after the analysis pipeline. -/
def router_node (s : ConversationState) : String :=
  if s.conversation_mode = "NEEDS_ATTENTION" then "handoff"
  else if negativeHandoffCheck s then "handoff"
  else if s.intent_score > 0.8 then "closing"
  else if s.stage = "closing" ∧ s.payment_link_sent = false then "payment"
  else if s.intent_score < 0.2 then "follow_up"
  else "conversation"

/-- A generic state used as the base of concrete test states: one human
message, neutral analysis fields, fresh durable fields. -/
def baseState : ConversationState :=
  { messages := [Message.human "hola"],
    user_phone := "+5215550000000",
    user_name := none,
    user_email := none,
    intent_score := 1/2,
    sentiment := "neutral",
    stage := "welcome",
    conversation_mode := "AUTO",
    collected_data := Dict.empty,
    payment_link_sent := false,
    follow_up_scheduled := none,
    follow_up_count := 0,
    conversation_summary := none,
    current_response := none,
    config := defaultConfig }

/-- The inner sentiment re-check can never fire: it demands at least two
entries of a list built with exactly one element. -/
lemma negativeHandoffCheck_eq_false (s : ConversationState) :
    negativeHandoffCheck s = false := by
  simp [negativeHandoffCheck]

/-- C3: for every state whose `conversation_mode` is `NEEDS_ATTENTION`, the
router returns `handoff`, whatever the other fields hold. -/
theorem router_handoff_of_needs_attention (s : ConversationState)
    (h : s.conversation_mode = "NEEDS_ATTENTION") :
    router_node s = "handoff" := by
  simp [router_node, h]

theorem router_handoff_of_needs_attention_witness :
    router_node { baseState with conversation_mode := "NEEDS_ATTENTION" } = "handoff" :=
  router_handoff_of_needs_attention
    { baseState with conversation_mode := "NEEDS_ATTENTION" } rfl

/-- C9: when `conversation_mode` is not `NEEDS_ATTENTION` the router can
never answer `handoff` — the negative-sentiment two-strikes branch is
unreachable — and consequently the routing decision does not depend on the
`sentiment` field at all. -/
theorem router_no_handoff_and_sentiment_irrelevant (s : ConversationState)
    (h : s.conversation_mode ≠ "NEEDS_ATTENTION") :
    negativeHandoffCheck s = false ∧ router_node s ≠ "handoff" ∧
      ∀ x : String, router_node { s with sentiment := x } = router_node s := by
  refine ⟨negativeHandoffCheck_eq_false s, ?_, ?_⟩
  · unfold router_node
    rw [if_neg h, negativeHandoffCheck_eq_false]
    simp only [Bool.false_eq_true, if_false]
    split_ifs <;> decide
  · intro x
    unfold router_node
    rw [negativeHandoffCheck_eq_false, negativeHandoffCheck_eq_false]

theorem router_no_handoff_and_sentiment_irrelevant_witness :
    negativeHandoffCheck baseState = false ∧ router_node baseState ≠ "handoff" ∧
      ∀ x : String, router_node { baseState with sentiment := x } = router_node baseState :=
  router_no_handoff_and_sentiment_irrelevant baseState (by decide)

/-- The concrete state refuting C4 as literally stated: in `closing` stage
with the payment link unsent and a modest intent score, but flagged
`NEEDS_ATTENTION`. -/
def c4State : ConversationState :=
  { baseState with stage := "closing", conversation_mode := "NEEDS_ATTENTION" }

/-- C4 (counterexample): a state satisfying all three stated preconditions
(`stage = closing`, `payment_link_sent = false`, `intent_score ≤ 0.8`) on
which the router does not return `payment` — it returns `handoff`, because
`conversation_mode = NEEDS_ATTENTION` is checked first. -/
theorem router_payment_claim_counterexample :
    c4State.stage = "closing" ∧ c4State.payment_link_sent = false ∧
      c4State.intent_score ≤ 0.8 ∧ router_node c4State ≠ "payment" := by
  refine ⟨rfl, rfl, by norm_num [c4State, baseState], ?_⟩
  have h : router_node c4State = "handoff" := by simp [router_node, c4State]
  rw [h]
  decide

/-- C4 (amended): with the extra precondition `conversation_mode ≠
NEEDS_ATTENTION`, every state in `closing` stage with the payment link
unsent and `intent_score ≤ 0.8` routes to `payment`; sentiment remains
irrelevant since the negative-sentiment branch is unreachable. -/
theorem router_payment_in_closing_stage (s : ConversationState)
    (hmode : s.conversation_mode ≠ "NEEDS_ATTENTION")
    (hstage : s.stage = "closing")
    (hlink : s.payment_link_sent = false)
    (hscore : s.intent_score ≤ 0.8) :
    router_node s = "payment" := by
  unfold router_node
  rw [if_neg hmode, negativeHandoffCheck_eq_false]
  simp only [Bool.false_eq_true, if_false]
  rw [if_neg (not_lt.mpr hscore), if_pos ⟨hstage, hlink⟩]

theorem router_payment_in_closing_stage_witness :
    router_node { baseState with stage := "closing" } = "payment" :=
  router_payment_in_closing_stage { baseState with stage := "closing" }
    (by decide) rfl rfl (by norm_num [baseState])

/-- The hard-coded default greeting in `welcome_node`
(`src/graph/nodes.py` line 93). -/
def defaultWelcomeMessage : String :=
  "¡Hola! 👋 Soy tu asistente virtual. ¿En qué puedo ayudarte hoy?"

/-- `welcome_node` from `src/graph/nodes.py` lines 80-103: emits the
configured greeting when at most one user message is in state, otherwise
returns the empty update. -/
def welcome_node (s : ConversationState) : StateUpdate :=
  let user_messages := s.messages.filter Message.isHuman
  if user_messages.length ≤ 1 then
    { emptyUpdate with
      current_response := some (s.config.welcome_message.getD defaultWelcomeMessage),
      stage := some "welcome" }
  else emptyUpdate

/-- The request-for-name text of `closing_node`
(`src/graph/nodes.py` line 395). -/
def requestNameMessage : String :=
  "¡Perfecto! Me encantaría ayudarte a completar tu compra. ¿Podrías decirme tu nombre primero?"

/-- Python truthiness of an optional string: `not state.get(key)` is true
when the key is absent or holds the empty string. -/
def optStrFalsy : Option String → Bool
  | none => true
  | some t => t = ""

/-- `closing_node` from `src/graph/nodes.py` lines 383-403: with no known
name it emits the request-for-name message; either way it sets stage
`closing`. -/
def closing_node (s : ConversationState) : StateUpdate :=
  if optStrFalsy s.user_name then
    { emptyUpdate with
      current_response := some requestNameMessage,
      stage := some "closing" }
  else
    { emptyUpdate with stage := some "closing" }

/-- `payment_node` from `src/graph/nodes.py` lines 411-438.
`closingMessage` is the output of the LLM call
`generate_closing_message(user_data, payment_link)`; the state only feeds
that call, the returned update is the same for every state. -/
def payment_node (closingMessage : String) (_s : ConversationState) : StateUpdate :=
  { emptyUpdate with
    current_response := some closingMessage,
    payment_link_sent := some true,
    stage := some "closing" }

/-- The `closing` branch of one graph pass as wired in
`create_sales_graph` (`src/graph/workflow.py` lines 86-87): after
`closing_node` runs, the unconditional edge `closing → payment` runs
`payment_node` on the merged state. -/
def closingBranch (closingMessage : String) (s : ConversationState) : ConversationState :=
  let s1 := applyUpdate s (closing_node s)
  applyUpdate s1 (payment_node closingMessage s1)

/-- The follow-up texts of `follow_up_node`
(`src/graph/nodes.py` lines 462, 470, 473). -/
def followUpMessageFirst : String :=
  "¡No hay problema! Te contactaré en un par de horas. ¡Tómate tu tiempo!"

/-- The second follow-up text (count = 1). -/
def followUpMessageSecond : String :=
  "¡Por supuesto! Te contactaré mañana. ¡Que tengas un excelente día!"

/-- The final reach-out-anytime text (count ≥ 2). -/
def followUpMessageFinal : String :=
  "¡Entendido! No dudes en contactarme cuando estés listo. ¡Estoy aquí para ayudarte!"

/-- `follow_up_node` from `src/graph/nodes.py` lines 446-484. `now` is
`datetime.utcnow()` in seconds; `timedelta(hours=h)` is `h * 3600`. -/
def follow_up_node (now : Nat) (s : ConversationState) : StateUpdate :=
  let follow_up_count := s.follow_up_count
  if 2 ≤ follow_up_count then
    { emptyUpdate with
      current_response := some followUpMessageFinal,
      conversation_mode := some "NEEDS_ATTENTION",
      stage := some "follow_up" }
  else
    let delay_hours := if follow_up_count = 0 then 2 else 24
    let response :=
      if follow_up_count = 0 then followUpMessageFirst else followUpMessageSecond
    { emptyUpdate with
      current_response := some response,
      follow_up_scheduled := some (now + delay_hours * 3600),
      follow_up_count := some (follow_up_count + 1),
      stage := some "follow_up" }

/-- The fallback apology of `process_message`
(`src/graph/workflow.py` line 173). -/
def apologyMessage : String :=
  "I apologize, I'm having trouble responding right now. Could you please try again?"

/-- The initial state `process_message` builds for a pass
(`src/graph/workflow.py` lines 140-156). -/
def initial_state (user_phone message : String)
    (conversation_history : List Message) (config : Config) : ConversationState :=
  { messages := conversation_history ++ [Message.human message],
    user_phone := user_phone,
    user_name := none,
    user_email := none,
    intent_score := 0,
    sentiment := "neutral",
    stage := "welcome",
    conversation_mode := "AUTO",
    collected_data := Dict.empty,
    payment_link_sent := false,
    follow_up_scheduled := none,
    follow_up_count := 0,
    conversation_summary := none,
    current_response := none,
    config := config }

/-- `process_message` from `src/graph/workflow.py` lines 112-174.
`graphResult` is the outcome of `await graph.ainvoke(initial_state)`:
`Except.error` stands for any unhandled exception escaping graph
execution. The fallback spreads the *local* `initial_state` dict
(`{**initial_state, ...}`, line 172), and `data_collector_node` mutates
the `collected_data` object of that very dict in place
(`collected_data.update(extracted_data)`, `src/graph/nodes.py` lines
216-217) before a later node may raise; every other field of the dict is
an immutable value no node mutates in place. The error therefore carries,
besides the exception text, the contents of the shared `collected_data`
dict at the moment the exception escaped. -/
def process_message (user_phone message : String)
    (conversation_history : List Message) (config : Config)
    (graphResult : Except (String × Dict) ConversationState) : ConversationState :=
  match graphResult with
  | Except.ok result => result
  | Except.error e =>
      { initial_state user_phone message conversation_history config with
        collected_data := e.2,
        current_response := some apologyMessage }

/-- C6: the welcome node emits the configured greeting with stage
`welcome` exactly when at most one user-authored message is in state; with
two or more user messages it returns the empty update, touching neither
`current_response` nor `stage`. -/
theorem welcome_node_first_message_iff (s : ConversationState) :
    ((s.messages.filter Message.isHuman).length ≤ 1 →
      welcome_node s =
        { emptyUpdate with
          current_response := some (s.config.welcome_message.getD defaultWelcomeMessage),
          stage := some "welcome" }) ∧
    (2 ≤ (s.messages.filter Message.isHuman).length → welcome_node s = emptyUpdate) ∧
    ((welcome_node s).current_response ≠ none ↔
      (s.messages.filter Message.isHuman).length ≤ 1) := by
  by_cases h : (s.messages.filter Message.isHuman).length ≤ 1
  · refine ⟨fun _ => by simp [welcome_node, h], fun h2 => absurd h (by omega), ?_⟩
    simp [welcome_node, h]
  · refine ⟨fun h1 => absurd h1 h, fun _ => by simp [welcome_node, h], ?_⟩
    simp [welcome_node, h, emptyUpdate]

theorem welcome_node_first_message_iff_witness :
    welcome_node baseState =
      { emptyUpdate with
        current_response := some defaultWelcomeMessage,
        stage := some "welcome" } :=
  (welcome_node_first_message_iff baseState).1 (by decide)

/-- C5: the follow-up node is a function of `follow_up_count` alone (for a
fixed clock reading): count 0 schedules now + 2 hours, returns count 1 and
the first friendly text; count 1 schedules now + 24 hours, returns count 2
and a different text; count ≥ 2 schedules nothing, flips the mode to
`NEEDS_ATTENTION`, sets stage `follow_up` and emits the reach-out-anytime
text. -/
theorem follow_up_node_count_policy (now : Nat) (s : ConversationState) :
    (s.follow_up_count = 0 → follow_up_node now s =
      { emptyUpdate with
        current_response := some followUpMessageFirst,
        follow_up_scheduled := some (now + 2 * 3600),
        follow_up_count := some 1,
        stage := some "follow_up" }) ∧
    (s.follow_up_count = 1 → follow_up_node now s =
      { emptyUpdate with
        current_response := some followUpMessageSecond,
        follow_up_scheduled := some (now + 24 * 3600),
        follow_up_count := some 2,
        stage := some "follow_up" }) ∧
    (2 ≤ s.follow_up_count → follow_up_node now s =
      { emptyUpdate with
        current_response := some followUpMessageFinal,
        conversation_mode := some "NEEDS_ATTENTION",
        stage := some "follow_up" }) ∧
    followUpMessageFirst ≠ followUpMessageSecond ∧
    (∀ t : ConversationState, t.follow_up_count = s.follow_up_count →
      follow_up_node now t = follow_up_node now s) := by
  refine ⟨fun h0 => by simp [follow_up_node, h0],
          fun h1 => by simp [follow_up_node, h1],
          fun h2 => by simp [follow_up_node, h2],
          by decide,
          fun t ht => by unfold follow_up_node; rw [ht]⟩

theorem follow_up_node_count_policy_witness :
    follow_up_node 0 baseState =
      { emptyUpdate with
        current_response := some followUpMessageFirst,
        follow_up_scheduled := some (0 + 2 * 3600),
        follow_up_count := some 1,
        stage := some "follow_up" } :=
  (follow_up_node_count_policy 0 baseState).1 rfl

/-- The failing input for C2: a state whose pass the router sends to the
`closing` branch (intent score 0.95) while no user name is known. -/
def c2State : ConversationState :=
  { baseState with intent_score := 95/100 }

/-- C2 (the code violates the claim): the router picks `closing` and
`closing_node` does emit the request-for-name response with stage
`closing`, but the unconditional `closing → payment` edge of
`create_sales_graph` then runs `payment_node` in the same pass, which
overwrites `current_response` with the generated payment message and sets
`payment_link_sent` to true — contradicting `closing_node`'s own contract
of requesting the name before payment. -/
theorem closing_branch_runs_payment_without_name :
    router_node c2State = "closing" ∧
    c2State.user_name = none ∧
    (applyUpdate c2State (closing_node c2State)).current_response =
      some requestNameMessage ∧
    (applyUpdate c2State (closing_node c2State)).stage = "closing" ∧
    (closingBranch "payMsg" c2State).payment_link_sent = true ∧
    (closingBranch "payMsg" c2State).current_response = some "payMsg" := by
  refine ⟨?_, rfl, rfl, rfl, rfl, rfl⟩
  have h8 : c2State.intent_score > 0.8 := by
    norm_num [c2State, baseState]
  have hm : c2State.conversation_mode ≠ "NEEDS_ATTENTION" := by decide
  unfold router_node
  rw [if_neg hm, negativeHandoffCheck_eq_false]
  simp only [Bool.false_eq_true, if_false]
  rw [if_pos h8]

/-- The shared `collected_data` dict as `data_collector_node` can leave
it before a later node raises: one extracted key merged in place. -/
def mutatedCollected : Dict :=
  fun k => if k = "name" then some "Ana" else none

/-- C1 (counterexample): a pass in which the data collector has merged
`name = Ana` into the shared `collected_data` dict before the
conversation node raised (e.g. `get_collection_stats` at
`src/graph/nodes.py` line 330). The fallback state is then not equal to
the freshly constructed initial state with only `current_response`
replaced: its `collected_data` differs. -/
theorem process_message_fallback_counterexample :
    process_message "+5215550000000" "hola, soy Ana" [] defaultConfig
        (Except.error ("retrieval failure", mutatedCollected)) ≠
      { initial_state "+5215550000000" "hola, soy Ana" [] defaultConfig with
        current_response := some apologyMessage } := by
  intro h
  have h2 := congrArg (fun s => s.collected_data "name") h
  simp [process_message, initial_state, mutatedCollected, Dict.empty] at h2

/-- C1 (amended): when graph execution ends in any unhandled exception,
`process_message` does not re-raise; it returns the freshly built initial
state with `current_response` replaced by the generic apology and
`collected_data` holding whatever the shared dict contains at the moment
of the exception — every other field keeps its pre-call initial value,
and the caller always receives a displayable reply. -/
theorem process_message_exception_fallback (user_phone message : String)
    (conversation_history : List Message) (config : Config) (e : String)
    (collectedAtFailure : Dict) :
    process_message user_phone message conversation_history config
        (Except.error (e, collectedAtFailure)) =
      { initial_state user_phone message conversation_history config with
        collected_data := collectedAtFailure,
        current_response := some apologyMessage } := rfl

/-- C10: the initial state of every pass is built with the durable fields
reset to their fresh defaults, whatever history and config the caller
passes: no user name or email, zero intent, neutral sentiment, stage
`welcome`, mode `AUTO`, empty collected data, payment link unsent, and
follow-up count zero. -/
theorem initial_state_resets_durable_fields (user_phone message : String)
    (conversation_history : List Message) (config : Config) :
    (initial_state user_phone message conversation_history config).user_name = none ∧
    (initial_state user_phone message conversation_history config).user_email = none ∧
    (initial_state user_phone message conversation_history config).intent_score = 0 ∧
    (initial_state user_phone message conversation_history config).sentiment = "neutral" ∧
    (initial_state user_phone message conversation_history config).stage = "welcome" ∧
    (initial_state user_phone message conversation_history config).conversation_mode = "AUTO" ∧
    (initial_state user_phone message conversation_history config).collected_data = Dict.empty ∧
    (initial_state user_phone message conversation_history config).payment_link_sent = false ∧
    (initial_state user_phone message conversation_history config).follow_up_count = 0 :=
  ⟨rfl, rfl, rfl, rfl, rfl, rfl, rfl, rfl, rfl⟩

/-- C8: merging extraction result `A` into `M` and then `B` into the
outcome equals one merge of the key-wise union of `A` and `B` (with `B`
winning on shared keys) into `M`: sequential per-pass `dict.update` calls
lose no keys, and the later value wins per key. -/
theorem dictUpdate_assoc (M A B : Dict) :
    dictUpdate (dictUpdate M A) B = dictUpdate M (dictUpdate A B) := by
  funext k
  unfold dictUpdate
  cases B k <;> simp

/-- Counting maximal non-whitespace runs: Python `len(text.split())`.
`inWord` records whether the previous character was inside a word. -/
def countWordRuns : List Char → Bool → Nat
  | [], _ => 0
  | c :: rest, inWord =>
    if c.isWhitespace then countWordRuns rest false
    else (if inWord then 0 else 1) + countWordRuns rest true

/-- `len(sentence.split())` from `src/services/llm_service.py` line 67. -/
def wordCount (s : String) : Nat := countWordRuns s.toList false

/-- `len(response_text.split())` (`src/services/llm_service.py` line 296):
the word count of the whole text is the sum over its sentence segments,
since the regex at line 59 splits between sentences at whitespace. -/
def totalWords (sentences : List String) : Nat := (sentences.map wordCount).sum

/-- The sentence-grouping loop of `LLMService.split_into_parts`
(`src/services/llm_service.py` lines 61-80), on the sentence list the
regex split at line 59 produces. A part is the list of whole sentences
that `' '.flatten(current_part)` renders. -/
def splitGo (maxWords : Nat) :
    List String → List String → Nat → List (List String) → List (List String)
  | [], current, _, parts =>
      if current.isEmpty then parts else parts ++ [current]
  | sentence :: rest, current, current_word_count, parts =>
      let sentence_words := wordCount sentence
      if maxWords < current_word_count + sentence_words ∧ ¬current.isEmpty then
        splitGo maxWords rest [sentence] sentence_words (parts ++ [current])
      else
        splitGo maxWords rest (current ++ [sentence])
          (current_word_count + sentence_words) parts

/-- `LLMService.split_into_parts(text, max_words)` with `text` given as
its sentence segmentation. -/
def split_into_parts (sentences : List String) (maxWords : Nat) :
    List (List String) :=
  splitGo maxWords sentences [] 0 []

/-- The cap in `generate_response` (`src/services/llm_service.py` lines
304-306): more than 3 parts are collapsed to the first part, the merge of
all middle parts, and the last part. -/
def capTo3 (parts : List (List String)) : List (List String) :=
  match parts with
  | p0 :: p1 :: p2 :: p3 :: rest =>
      [p0, ((p1 :: p2 :: p3 :: rest).dropLast).flatten,
        (p1 :: p2 :: p3 :: rest).getLast (by simp)]
  | other => other

/-- The multi-part splitting step of `generate_response`
(`src/services/llm_service.py` lines 294-311) with `multi_part_messages`
enabled: texts of fewer than 20 words stay whole; otherwise the word
budget is a third (or half, under 30 words) of the total and the parts
are capped at 3. -/
def multiPartSplit (sentences : List String) : List (List String) :=
  if 20 ≤ totalWords sentences then
    capTo3 (split_into_parts sentences
      (if 30 ≤ totalWords sentences then totalWords sentences / 3
       else totalWords sentences / 2))
  else [sentences]

/-- The grouping loop distributes every sentence, in order, into exactly
one part. -/
lemma splitGo_flatten (maxWords : Nat) (rest : List String) :
    ∀ (current : List String) (cwc : Nat) (parts : List (List String)),
      (splitGo maxWords rest current cwc parts).flatten =
        parts.flatten ++ current ++ rest := by
  induction rest with
  | nil =>
      intro current cwc parts
      by_cases h : current.isEmpty <;>
        simp [splitGo, h, List.isEmpty_iff.mp, List.isEmpty_iff] at *
  | cons sentence rest ih =>
      intro current cwc parts
      simp only [splitGo]
      split
      · rw [ih]
        simp
      · rw [ih]
        simp

/-- No sentence is lost or split by `split_into_parts`: flattening the
parts gives back the sentence list. -/
lemma split_into_parts_flatten (sentences : List String) (maxWords : Nat) :
    (split_into_parts sentences maxWords).flatten = sentences := by
  unfold split_into_parts
  rw [splitGo_flatten]
  simp

/-- Collapsing to 3 parts keeps every sentence, in order. -/
lemma capTo3_flatten (parts : List (List String)) :
    (capTo3 parts).flatten = parts.flatten := by
  unfold capTo3
  split
  · rename_i p0 p1 p2 p3 rest
    have h : (p1 :: p2 :: p3 :: rest) ≠ [] := by simp
    conv_rhs =>
      rw [show (p0 :: p1 :: p2 :: p3 :: rest) =
        p0 :: ((p1 :: p2 :: p3 :: rest).dropLast ++
          [(p1 :: p2 :: p3 :: rest).getLast h]) from by
            rw [List.dropLast_append_getLast h]]
    simp
  · rfl

/-- The cap never returns more than 3 parts. -/
lemma capTo3_length (parts : List (List String)) :
    (capTo3 parts).length ≤ 3 := by
  rcases parts with _ | ⟨p0, _ | ⟨p1, _ | ⟨p2, _ | ⟨p3, rest⟩⟩⟩⟩ <;>
    simp [capTo3]

/-- C7: with multi-part messages enabled, a generated text of at least 20
words is delivered as at most 3 parts, each part a concatenation of whole
sentences; flattening the parts restores the sentence list exactly, so no
sentence is split across parts or lost. -/
theorem multi_part_split_bounds (sentences : List String)
    (h : 20 ≤ totalWords sentences) :
    (multiPartSplit sentences).length ≤ 3 ∧
      (multiPartSplit sentences).flatten = sentences := by
  unfold multiPartSplit
  rw [if_pos h]
  exact ⟨capTo3_length _, by rw [capTo3_flatten, split_into_parts_flatten]⟩

/-- A concrete generated reply of 29 words, given as its sentence
segmentation. -/
def sampleSentences : List String :=
  ["El plan premium incluye soporte completo todos los dias del mes.",
   "Puedes cancelar tu plan en cualquier momento sin costo.",
   "El pago se procesa de forma segura con tarjeta o transferencia."]

theorem multi_part_split_bounds_witness :
    20 ≤ totalWords sampleSentences ∧
      (multiPartSplit sampleSentences).length ≤ 3 ∧
      (multiPartSplit sampleSentences).flatten = sampleSentences :=
  ⟨by decide, multi_part_split_bounds sampleSentences (by decide)⟩
